import Mathlib

/-!
Verification of the key-delivery Telegram bot (src/main.py) against its
natural-language specification.

The Python program is shallowly embedded below:
- the Key-Data Store (global KEY_MAP, built by load_key_map_from_sheet) is an
  association list from normalized key strings to file-descriptor lists;
- the admission gate (enqueue_key_request), one iteration of the queue worker
  body (process_queue_task) and the delivery loop (handle_key_actual) are pure
  state-transition functions; external Telegram calls that may raise are
  modelled by boolean oracles, and an uncaught exception escaping a handler is
  an explicit crashed flag;
- the webhook handler (telegram_webhook) and the admin reload command
  (reload_sheet) are pure functions of their inputs.

Python string primitives are modelled on the character list of a String so
that they compute by structural recursion (ASCII fragment, which covers every
literal the program compares against).
-/

/-- str.lower() (ASCII fragment). -/
def pyLower (s : String) : String :=
  ⟨s.data.map Char.toLower⟩

/-- str.strip(): drop whitespace from both ends. -/
def pyStrip (s : String) : String :=
  ⟨((s.data.dropWhile Char.isWhitespace).reverse.dropWhile Char.isWhitespace).reverse⟩

/-- str.split(","): split at every comma; the empty string yields [""],
exactly as in Python. -/
def splitCommaAux : List Char → List Char → List String
  | [], acc => [⟨acc.reverse⟩]
  | c :: rest, acc =>
    if c = ',' then ⟨acc.reverse⟩ :: splitCommaAux rest []
    else splitCommaAux rest (c :: acc)

/-- str.split(",") on a whole string. -/
def pySplitComma (s : String) : List String :=
  splitCommaAux s.data []

/-- str.isdigit(): nonempty and every character a digit. -/
def pyIsdigit (s : String) : Bool :=
  !s.data.isEmpty && s.data.all Char.isDigit

/-- A spreadsheet row, schema key / name_file / message_id (section 6 of the
spec; worksheet.get_all_records in main.py). -/
structure Row where
  key : String
  name_file : String
  message_id : Int
deriving DecidableEq, Repr

/-- FileDescriptor: the per-file record kept in the Key-Data Store
(columns name_file and message_id of a row). -/
structure FileInfo where
  name_file : String
  message_id : Int
deriving DecidableEq, Repr

/-- Projection of a row to the stored record, as in
group[["name_file", "message_id"]].to_dict("records"). -/
def rowFile (r : Row) : FileInfo :=
  ⟨r.name_file, r.message_id⟩

/-- The Key-Data Store table: KEY_MAP, a dict from normalized key to the list
of file records, embedded as an association list. -/
abbrev KeyMap := List (String × List FileInfo)

/-- Key normalization: str.strip().str.lower() in load_key_map_from_sheet,
and text.strip().lower() on user input. -/
def normalizeKey (s : String) : String :=
  pyLower (pyStrip s)

/-- Dictionary read KEY_MAP[k]: the entry whose key equals k, if any. -/
def lookupKey (m : KeyMap) (k : String) : Option (List FileInfo) :=
  (m.find? (fun p => p.1 == k)).map Prod.snd

/-- The groupby("key") step of load_key_map_from_sheet: rows get their key
normalized, then one table entry per distinct normalized key, holding that
key's rows in source order.  (pandas lists group keys sorted; the entry order
of the resulting dict is irrelevant to every lookup the program does, so the
first-occurrence order used here is observationally the same table.) -/
def buildKeyMap (rows : List Row) : KeyMap :=
  let normed := rows.map (fun r => { r with key := normalizeKey r.key })
  (normed.map Row.key).dedup.map
    (fun k => (k, (normed.filter (fun r => r.key == k)).map rowFile))

/-- Outcome of the Google Sheet fetch-and-parse pipeline inside the try block
of load_key_map_from_sheet: either the concatenated rows of all tabs, or any
exception (network error, missing tab, malformed sheet, missing key column). -/
inductive SheetResult where
  | ok (rows : List Row)
  | err
deriving DecidableEq, Repr

/-- load_key_map_from_sheet.  Inputs beyond the force_from_sheet flag are the
ambient world: the local cache file (none = missing, some none = present but
unparseable, some (some m) = parses to m), whether GOOGLE_SHEET_JSON is set,
the sheet pipeline outcome, and the previous global KEY_MAP.  Returns the new
global KEY_MAP paired with the Python return value. -/
def load_key_map_from_sheet (force_from_sheet : Bool)
    (cache : Option (Option KeyMap)) (hasCreds : Bool) (sheet : SheetResult)
    (prev : KeyMap) : KeyMap × KeyMap :=
  match (if force_from_sheet then none else cache) with
  | some (some m) => (m, m)
  | _ =>
    if !hasCreds then
      (prev, [])
    else
      match sheet with
      | .ok rows =>
        let m := buildKeyMap rows
        (m, m)
      | .err => (prev, prev)

/-- async_load_key_map_from_sheet_and_save_cache: forces a sheet load, then
reassigns the global KEY_MAP only when the returned map is truthy (nonempty);
success is that truthiness.  Returns (success, new global KEY_MAP). -/
def async_load_key_map_from_sheet_and_save_cache
    (cache : Option (Option KeyMap)) (hasCreds : Bool) (sheet : SheetResult)
    (prev : KeyMap) : Bool × KeyMap :=
  let r := load_key_map_from_sheet true cache hasCreds sheet prev
  if r.2.isEmpty then (false, r.1) else (true, r.2)

/-- The ADMIN_IDS parse at module load:
[id.strip() for id in os.environ.get("ADMIN_IDS", "").split(",")
 if id.strip().isdigit()]. -/
def parseADMIN_IDS (raw : String) : List String :=
  ((pySplitComma raw).map pyStrip).filter pyIsdigit

/-- Reply sent by the /reload handler. -/
inductive ReloadReply where
  | notAuthorized
  | reloadedOk
  | reloadedFailed
deriving DecidableEq, Repr

/-- reload_sheet: rejects a sender whose decimal id string is not in the
admin list, leaving KEY_MAP untouched; otherwise runs the forced reload and
reports its success flag.  Returns (reply, new global KEY_MAP). -/
def reload_sheet (adminIds : List String) (user_id : Int)
    (cache : Option (Option KeyMap)) (hasCreds : Bool) (sheet : SheetResult)
    (keyMap : KeyMap) : ReloadReply × KeyMap :=
  if toString user_id ∈ adminIds then
    let r := async_load_key_map_from_sheet_and_save_cache cache hasCreds sheet keyMap
    (if r.1 then .reloadedOk else .reloadedFailed, r.2)
  else
    (.notAuthorized, keyMap)

/-- One queued request: PROCESSING_QUEUE holds the update, from which the
worker reads effective_user.id and message.text. -/
structure QueueItem where
  user_id : Int
  text : String
deriving DecidableEq, Repr

/-- The mutable state the admission gate touches: the global KEY_MAP, the
USER_ACTIVE_REQUESTS key set, and the PROCESSING_QUEUE contents (front
first). -/
structure BotState where
  keyMap : KeyMap
  active : List Int
  queue : List QueueItem
deriving DecidableEq, Repr

/-- Reply sent by the admission gate enqueue_key_request. -/
inductive AdmitResult where
  | rejectedDuplicate
  | rejectedStoreNotReady
  | rejectedUnknownKey
  | accepted
deriving DecidableEq, Repr

/-- enqueue_key_request: the three rejection checks in program order, then
acceptance appends the item to the queue and records the user as active. -/
def enqueue_key_request (st : BotState) (user_id : Int) (text : String) :
    AdmitResult × BotState :=
  let user_input := normalizeKey text
  if user_id ∈ st.active then
    (.rejectedDuplicate, st)
  else if st.keyMap.isEmpty then
    (.rejectedStoreNotReady, st)
  else if (lookupKey st.keyMap user_input).isNone then
    (.rejectedUnknownKey, st)
  else
    (.accepted, { st with queue := st.queue ++ [⟨user_id, text⟩],
                          active := user_id :: st.active })

/-- Oracles for the external Telegram calls of one worker iteration; an entry
is false when the corresponding call raises.  copyOk and confirmOk are indexed
by the file position in the list. -/
structure WorkerEnv where
  validationReplyOk : Bool
  noFilesReplyOk : Bool
  copyOk : Nat → Bool
  confirmOk : Nat → Bool
  aggregateReplyOk : Bool

/-- The try block of the delivery loop for the file at index i: succeeds when
the locator is positive, copy_message succeeds, and the confirmation
reply_text succeeds; any of the three failing is caught there. -/
def deliverFile (env : WorkerEnv) (i : Nat) (f : FileInfo) : Bool :=
  decide (f.message_id > 0) && env.copyOk i && env.confirmOk i

/-- The for loop of handle_key_actual from index i on: returns the attempts
in order (file, success flag) and the final error counter. -/
def deliverLoop (env : WorkerEnv) (i : Nat) :
    List FileInfo → List (FileInfo × Bool) × Nat
  | [] => ([], 0)
  | f :: rest =>
    let ok := deliverFile env i f
    let r := deliverLoop env (i + 1) rest
    ((f, ok) :: r.1, (if ok then 0 else 1) + r.2)

/-- Observable result of one handle_key_actual call.  notice is the aggregate
reply the code sends after the loop (some true = success notice, some false =
failure notice, none = the early no-files return where no aggregate notice is
sent); noFilesReply marks that early error reply; crashed is set when a
reply_text outside the per-file try block raises, so the exception escapes
handle_key_actual. -/
structure DeliveryReport where
  attempts : List (FileInfo × Bool)
  errors : Nat
  notice : Option Bool
  noFilesReply : Bool
  crashed : Bool
deriving DecidableEq

/-- handle_key_actual: reads files_info = KEY_MAP.get(user_input, []); on an
empty list sends the incorrect-key reply and returns; otherwise runs the
delivery loop and sends exactly one aggregate notice, failure when the error
counter is nonzero. -/
def handle_key_actual (env : WorkerEnv) (keyMap : KeyMap)
    (user_input : String) : DeliveryReport :=
  let files := (lookupKey keyMap user_input).getD []
  if files.isEmpty then
    { attempts := [], errors := 0, notice := none, noFilesReply := true,
      crashed := !env.noFilesReplyOk }
  else
    let r := deliverLoop env 0 files
    { attempts := r.1, errors := r.2, notice := some (r.2 == 0),
      noFilesReply := false, crashed := !env.aggregateReplyOk }

/-- Which branch one worker iteration took for its item. -/
inductive ItemOutcome where
  | validationError
  | noFilesReply
  | delivered (errors : Nat)
deriving DecidableEq, Repr

/-- Result of one worker iteration: the branch taken, whether an uncaught
exception escaped the iteration (killing the worker task before the
USER_ACTIVE_REQUESTS cleanup), and the USER_ACTIVE_REQUESTS set after. -/
structure StepResult where
  outcome : ItemOutcome
  crashed : Bool
  active : List Int
deriving DecidableEq, Repr

/-- The body of one process_queue_task iteration on a dequeued item:
re-validates that KEY_MAP is nonempty and still contains the normalized key
(on failure sends the generic processing-error reply, without invoking
handle_key_actual), otherwise runs handle_key_actual; afterwards, if control
reaches that point without an exception, deletes the user from
USER_ACTIVE_REQUESTS.  There is no try/finally: an exception raised by any
reply_text outside the per-file try block propagates, skipping the cleanup. -/
def process_queue_item (env : WorkerEnv) (keyMap : KeyMap)
    (active : List Int) (item : QueueItem) : StepResult :=
  let user_input := normalizeKey item.text
  if keyMap.isEmpty || (lookupKey keyMap user_input).isNone then
    if env.validationReplyOk then
      { outcome := .validationError, crashed := false,
        active := active.erase item.user_id }
    else
      { outcome := .validationError, crashed := true, active := active }
  else
    let rep := handle_key_actual env keyMap user_input
    let oc : ItemOutcome :=
      if rep.noFilesReply then .noFilesReply else .delivered rep.errors
    if rep.crashed then
      { outcome := oc, crashed := true, active := active }
    else
      { outcome := oc, crashed := false, active := active.erase item.user_id }

/-- The webhook request body as the handler observes it: request.json() may
raise (malformed), or parse to a value that is truthy or not and has an
update_id field or not. -/
inductive Body where
  | malformed
  | parsed (truthy : Bool) (hasUpdateId : Bool)
deriving DecidableEq, Repr

/-- The JSON body telegram_webhook returns; it never returns an HTTP error
status. -/
inductive WebhookResponse where
  | errorBody
  | okBody
deriving DecidableEq, Repr

/-- The try block of telegram_webhook: parse the body, acknowledge keep-alive
pings without processing, otherwise run process_update, which may itself
raise.  error marks an exception reaching the except clause; ok carries
whether the update was processed to completion. -/
def webhookTryBlock (body : Body) (processRaises : Bool) : Except Unit Bool :=
  match body with
  | .malformed => .error ()
  | .parsed truthy hasUpdateId =>
    if !truthy || !hasUpdateId then .ok false
    else if processRaises then .error () else .ok true

/-- telegram_webhook: a wrong path token returns the error body immediately;
otherwise any exception from the try block is caught and the handler returns
the ok body.  Second component: whether process_update ran to completion. -/
def telegram_webhook (botToken token : String) (body : Body)
    (processRaises : Bool) : WebhookResponse × Bool :=
  if token ≠ botToken then
    (.errorBody, false)
  else
    match webhookTryBlock body processRaises with
    | .ok processed => (.okBody, processed)
    | .error _ => (.okBody, false)

/-! ## Helper lemmas -/

/-- find? over a keyed map hits the searched key when it occurs in the key
list. -/
theorem find?_keyed_map (g : String → List FileInfo) (k : String) :
    ∀ l : List String, k ∈ l →
      (l.map (fun x => (x, g x))).find? (fun p => p.1 == k) = some (k, g k) := by
  intro l
  induction l with
  | nil => intro h; cases h
  | cons a t ih =>
    intro h
    rw [List.map_cons]
    by_cases hak : a = k
    · subst hak
      exact List.find?_cons_of_pos _ (by simp)
    · have hb : (a == k) = false := beq_eq_false_iff_ne.mpr hak
      have hkt : k ∈ t := by
        rcases List.mem_cons.mp h with h1 | h2
        · exact absurd h1.symm hak
        · exact h2
      exact (List.find?_cons_of_neg _ (by simp [hak])).trans (ih hkt)

/-- Filtering the key-normalized rows and projecting to file records equals
filtering the source rows on the normalized key and projecting. -/
theorem filter_normed_map_rowFile (k : String) :
    ∀ rows : List Row,
      ((rows.map (fun r => { r with key := normalizeKey r.key })).filter
          (fun r => r.key == k)).map rowFile =
        (rows.filter (fun r => normalizeKey r.key == k)).map rowFile := by
  intro rows
  induction rows with
  | nil => rfl
  | cons a t ih =>
    cases h : (normalizeKey a.key == k) with
    | true => simp [List.filter_cons, h, ih, rowFile]
    | false => simp [List.filter_cons, h, ih]

/-- A some result of lookupKey is an entry of the table. -/
theorem lookupKey_some_mem (m : KeyMap) (k : String) (fs : List FileInfo)
    (h : lookupKey m k = some fs) : (k, fs) ∈ m := by
  unfold lookupKey at h
  cases hf : m.find? (fun p => p.1 == k) with
  | none => rw [hf] at h; cases h
  | some p =>
    rw [hf] at h
    have hp := List.mem_of_find?_eq_some hf
    have hpred := List.find?_some hf
    have hk : p.1 = k := by
      have : (p.1 == k) = true := hpred
      exact eq_of_beq this
    have hfs : p.2 = fs := by
      simpa using h
    rw [← hk, ← hfs]
    exact hp

/-- Every table entry built by grouping holds a nonempty record list. -/
theorem buildKeyMap_value_ne_nil (rows : List Row) (k : String)
    (fs : List FileInfo) (h : (k, fs) ∈ buildKeyMap rows) : fs ≠ [] := by
  simp only [buildKeyMap] at h
  obtain ⟨k2, hk2, heq⟩ := List.mem_map.mp h
  obtain ⟨hk2k, hfs⟩ := Prod.mk.injEq .. ▸ heq
  have hkeys := List.mem_dedup.mp hk2
  obtain ⟨r2, hr2, hkey⟩ := List.mem_map.mp hkeys
  have hmem : r2 ∈ (rows.map (fun r => { r with key := normalizeKey r.key })).filter
      (fun r => r.key == k2) := by
    refine List.mem_filter.mpr ⟨hr2, ?_⟩
    simp [hkey]
  have : rowFile r2 ∈ fs := by
    rw [← hfs]
    exact List.mem_map_of_mem rowFile hmem
  exact List.ne_nil_of_mem this

/-- The delivery loop attempts exactly the files it is given, in order. -/
theorem deliverLoop_map_fst (env : WorkerEnv) :
    ∀ (i : Nat) (files : List FileInfo),
      (deliverLoop env i files).1.map Prod.fst = files := by
  intro i files
  induction files generalizing i with
  | nil => rfl
  | cons f rest ih => simp [deliverLoop, ih]

/-- The error counter of the delivery loop counts exactly the failed
attempts. -/
theorem deliverLoop_errors_count (env : WorkerEnv) :
    ∀ (i : Nat) (files : List FileInfo),
      (deliverLoop env i files).2 =
        ((deliverLoop env i files).1.filter (fun a => a.2 == false)).length := by
  intro i files
  induction files generalizing i with
  | nil => rfl
  | cons f rest ih =>
    cases hok : deliverFile env i f with
    | true => simp [deliverLoop, hok, List.filter_cons, ih]
    | false => simp [deliverLoop, hok, List.filter_cons, ih, Nat.add_comm]

/-! ## Claim theorems -/

/-- C5: for every key K present in a table built from spreadsheet rows,
lookup(normalize(K)) returns exactly the ordered file list obtained by
grouping the source rows by normalized key, with source order preserved
within each group. -/
theorem C5_lookup_returns_grouped_rows (rows : List Row) (r : Row)
    (hr : r ∈ rows) :
    lookupKey (buildKeyMap rows) (normalizeKey r.key) =
      some ((rows.filter
          (fun r2 => normalizeKey r2.key == normalizeKey r.key)).map rowFile) := by
  have hk : normalizeKey r.key ∈
      ((rows.map (fun r2 => { r2 with key := normalizeKey r2.key })).map Row.key) :=
    List.mem_map.mpr ⟨{ r with key := normalizeKey r.key },
      List.mem_map.mpr ⟨r, hr, rfl⟩, rfl⟩
  have hk2 := List.mem_dedup.mpr hk
  simp only [buildKeyMap, lookupKey]
  rw [find?_keyed_map _ _ _ hk2]
  simp [filter_normed_map_rowFile]

/-- C5 witness: the spec scenario, rows UE100/Pack1.zip/42 and
ue100/Pack2.zip/43 give lookup("ue100") = [Pack1.zip 42, Pack2.zip 43]. -/
theorem C5_lookup_witness :
    lookupKey (buildKeyMap [⟨"UE100", "Pack1.zip", 42⟩, ⟨"ue100", "Pack2.zip", 43⟩])
        (normalizeKey "UE100") =
      some (([⟨"UE100", "Pack1.zip", 42⟩, ⟨"ue100", "Pack2.zip", 43⟩].filter
          (fun r2 : Row => normalizeKey r2.key == normalizeKey "UE100")).map rowFile)
    ∧ (([⟨"UE100", "Pack1.zip", 42⟩, ⟨"ue100", "Pack2.zip", 43⟩].filter
          (fun r2 : Row => normalizeKey r2.key == normalizeKey "UE100")).map rowFile)
        = [⟨"Pack1.zip", 42⟩, ⟨"Pack2.zip", 43⟩] :=
  ⟨C5_lookup_returns_grouped_rows
      [⟨"UE100", "Pack1.zip", 42⟩, ⟨"ue100", "Pack2.zip", 43⟩]
      ⟨"UE100", "Pack1.zip", 42⟩ (by decide), by decide⟩

/-- C4: the delivery executor attempts every file in the list exactly once,
in list order, never retrying a file, and the error counter counts exactly
the failed attempts — one failure never aborts the remaining files. -/
theorem C4_every_file_attempted_once (env : WorkerEnv) (keyMap : KeyMap)
    (user_input : String) :
    (handle_key_actual env keyMap user_input).attempts.map Prod.fst =
      (lookupKey keyMap user_input).getD []
    ∧ (handle_key_actual env keyMap user_input).errors =
      ((handle_key_actual env keyMap user_input).attempts.filter
        (fun a => a.2 == false)).length := by
  unfold handle_key_actual
  cases hf : (lookupKey keyMap user_input).getD [] with
  | nil => simp
  | cons f rest =>
    simp only [hf, List.isEmpty_cons, if_neg]
    constructor
    · exact deliverLoop_map_fst env 0 (f :: rest)
    · exact deliverLoop_errors_count env 0 (f :: rest)

/-- C9: every key of a table built by a successful spreadsheet load maps to a
nonempty file list, and consequently a worker item validated against such a
table can never reach the empty-file-list error branch of the delivery
executor. -/
theorem C9_built_table_values_nonempty (rows : List Row) :
    (∀ k fs, (k, fs) ∈ buildKeyMap rows → fs ≠ [])
    ∧ (∀ (env : WorkerEnv) (active : List Int) (item : QueueItem),
        (process_queue_item env (buildKeyMap rows) active item).outcome =
          ItemOutcome.validationError
        ∨ ∃ n, (process_queue_item env (buildKeyMap rows) active item).outcome =
          ItemOutcome.delivered n) := by
  constructor
  · exact fun k fs h => buildKeyMap_value_ne_nil rows k fs h
  · intro env active item
    unfold process_queue_item
    cases hcond : ((buildKeyMap rows).isEmpty
        || (lookupKey (buildKeyMap rows) (normalizeKey item.text)).isNone) with
    | true =>
      left
      cases env.validationReplyOk <;> simp [hcond]
    | false =>
      right
      have hns : ¬ (lookupKey (buildKeyMap rows) (normalizeKey item.text)).isNone := by
        intro hn
        simp [hn] at hcond
      cases hl : lookupKey (buildKeyMap rows) (normalizeKey item.text) with
      | none => exact absurd (by simp [hl]) hns
      | some fs =>
        have hfs : fs ≠ [] :=
          buildKeyMap_value_ne_nil rows (normalizeKey item.text) fs
            (lookupKey_some_mem _ _ _ hl)
        have hne : fs.isEmpty = false := by
          cases fs with
          | nil => exact absurd rfl hfs
          | cons f rest => rfl
        refine ⟨(handle_key_actual env (buildKeyMap rows) (normalizeKey item.text)).errors, ?_⟩
        have hrep : (handle_key_actual env (buildKeyMap rows)
            (normalizeKey item.text)).noFilesReply = false := by
          unfold handle_key_actual
          simp [hl, hne]
        simp only [hcond, Bool.false_eq_true, if_false]
        cases hc : (handle_key_actual env (buildKeyMap rows)
            (normalizeKey item.text)).crashed <;> simp [hc, hrep]

/-- C9 witness: the spec scenario table has the nonempty value list for key
ue100, and its worker step never hits the no-files branch. -/
theorem C9_built_table_witness :
    ([⟨"Pack1.zip", 42⟩, ⟨"Pack2.zip", 43⟩] : List FileInfo) ≠ []
    ∧ ((process_queue_item ⟨true, true, fun _ => true, fun _ => true, true⟩
          (buildKeyMap [⟨"UE100", "Pack1.zip", 42⟩, ⟨"ue100", "Pack2.zip", 43⟩])
          [5] ⟨5, "ue100"⟩).outcome = ItemOutcome.validationError
      ∨ ∃ n, (process_queue_item ⟨true, true, fun _ => true, fun _ => true, true⟩
          (buildKeyMap [⟨"UE100", "Pack1.zip", 42⟩, ⟨"ue100", "Pack2.zip", 43⟩])
          [5] ⟨5, "ue100"⟩).outcome = ItemOutcome.delivered n) :=
  ⟨(C9_built_table_values_nonempty
      [⟨"UE100", "Pack1.zip", 42⟩, ⟨"ue100", "Pack2.zip", 43⟩]).1
      "ue100" [⟨"Pack1.zip", 42⟩, ⟨"Pack2.zip", 43⟩] (by decide),
   (C9_built_table_values_nonempty
      [⟨"UE100", "Pack1.zip", 42⟩, ⟨"ue100", "Pack2.zip", 43⟩]).2
      ⟨true, true, fun _ => true, fun _ => true, true⟩ [5] ⟨5, "ue100"⟩⟩

/-- C1 counterexample: a queue item for user 7 with a valid key, on which the
delivery itself succeeds but the aggregate reply send raises.  The exception
propagates out of the iteration (crashed = true) and user 7 is still in
USER_ACTIVE_REQUESTS afterwards, refuting removal on every code path. -/
theorem C1_counterexample_skipped_release :
    process_queue_item ⟨true, true, fun _ => true, fun _ => true, false⟩
        [("ue100", [⟨"Pack1.zip", 42⟩])] [7] ⟨7, "ue100"⟩ =
      ⟨ItemOutcome.delivered 0, true, [7]⟩ := by decide

/-- C1 amended: on every path on which no reply send outside the per-file
try block raises — delivery success, validation failure, and any per-file
copy or confirmation failures included — the worker removes the user from
USER_ACTIVE_REQUESTS and the iteration does not crash. -/
theorem C1_release_on_noncrashing_paths (env : WorkerEnv) (keyMap : KeyMap)
    (active : List Int) (item : QueueItem)
    (h1 : env.validationReplyOk = true)
    (h2 : env.noFilesReplyOk = true)
    (h3 : env.aggregateReplyOk = true) :
    (process_queue_item env keyMap active item).crashed = false
    ∧ (process_queue_item env keyMap active item).active =
        active.erase item.user_id := by
  unfold process_queue_item
  cases hcond : (keyMap.isEmpty
      || (lookupKey keyMap (normalizeKey item.text)).isNone) with
  | true => simp [hcond, h1]
  | false =>
    have hrep : (handle_key_actual env keyMap (normalizeKey item.text)).crashed
        = false := by
      unfold handle_key_actual
      cases hfe : ((lookupKey keyMap (normalizeKey item.text)).getD []).isEmpty <;>
        simp [hfe, h2, h3]
    simp [hcond, hrep]

/-- C1 witness: per-file delivery fails (copy oracle false) yet the user is
released and the worker survives. -/
theorem C1_release_witness :
    (process_queue_item ⟨true, true, fun _ => false, fun _ => true, true⟩
        [("ue100", [⟨"Pack1.zip", 42⟩])] [7] ⟨7, "ue100"⟩).crashed = false
    ∧ (process_queue_item ⟨true, true, fun _ => false, fun _ => true, true⟩
        [("ue100", [⟨"Pack1.zip", 42⟩])] [7] ⟨7, "ue100"⟩).active =
      [7].erase 7 :=
  C1_release_on_noncrashing_paths ⟨true, true, fun _ => false, fun _ => true, true⟩
    [("ue100", [⟨"Pack1.zip", 42⟩])] [7] ⟨7, "ue100"⟩ rfl rfl rfl

/-- C2 counterexample: with GOOGLE_SHEET_JSON missing, a forced load returns
the empty table although a nonempty table existed before, refuting that a
failed load returns the previous table (or empty only when none existed). -/
theorem C2_counterexample_missing_creds :
    (load_key_map_from_sheet true none false SheetResult.err
        [("ue100", [⟨"Pack1.zip", 42⟩])]).2 = []
    ∧ ([("ue100", [⟨"Pack1.zip", 42⟩])] : KeyMap) ≠ [] := by
  exact ⟨by decide, by decide⟩

/-- C2 amended: on any failed load (cache path not taken, and either the
credentials are missing or the sheet pipeline raises) the global table is
left unchanged; the return value is the empty table when credentials are
missing — even over a nonempty previous table — and the previous table
otherwise, so a reload caller that tests only truthiness then reports
success. -/
theorem C2_failure_keeps_global_table (force : Bool)
    (cache : Option (Option KeyMap)) (hasCreds : Bool) (sheet : SheetResult)
    (prev : KeyMap)
    (hcache : (if force then none else cache) = none
      ∨ (if force then none else cache) = some none)
    (hfail : hasCreds = false ∨ sheet = SheetResult.err) :
    (load_key_map_from_sheet force cache hasCreds sheet prev).1 = prev
    ∧ (load_key_map_from_sheet force cache hasCreds sheet prev).2 =
        (if hasCreds then prev else [])
    ∧ (prev ≠ [] → sheet = SheetResult.err → hasCreds = true →
        async_load_key_map_from_sheet_and_save_cache cache hasCreds sheet prev =
          (true, prev)) := by
  have hmain : load_key_map_from_sheet force cache hasCreds sheet prev =
      (prev, if hasCreds then prev else []) := by
    unfold load_key_map_from_sheet
    rcases hfail with hf | hf
    · subst hf
      rcases hcache with hc | hc <;> rw [hc] <;> simp
    · subst hf
      rcases hcache with hc | hc <;> rw [hc] <;> cases hasCreds <;> simp
  refine ⟨by rw [hmain], by rw [hmain], ?_⟩
  intro hp hs hcr
  subst hs
  subst hcr
  have hne : prev.isEmpty = false := by
    cases hpe : prev with
    | nil => exact absurd hpe hp
    | cons a l => rfl
  unfold async_load_key_map_from_sheet_and_save_cache load_key_map_from_sheet
  simp [hne]

/-- C2 witness: a forced reload attempt that fails with credentials present
keeps the nonempty table and is reported as a success by the reload caller. -/
theorem C2_failure_witness :
    (load_key_map_from_sheet true none true SheetResult.err
        [("k", [⟨"a", 1⟩])]).1 = [("k", [⟨"a", 1⟩])]
    ∧ (load_key_map_from_sheet true none true SheetResult.err
        [("k", [⟨"a", 1⟩])]).2 =
      (if true then [("k", [(⟨"a", 1⟩ : FileInfo)])] else [])
    ∧ async_load_key_map_from_sheet_and_save_cache none true SheetResult.err
        [("k", [⟨"a", 1⟩])] = (true, [("k", [⟨"a", 1⟩])]) :=
  have h := C2_failure_keeps_global_table true none true SheetResult.err
    [("k", [⟨"a", 1⟩])] (Or.inl rfl) (Or.inr rfl)
  ⟨h.1, h.2.1, h.2.2 (by decide) rfl rfl⟩

/-- C3: the admission gate applies its rejection checks in program order —
duplicate in flight, then store not ready, then unknown key — each rejection
leaving the whole state (queue and active set included) unchanged; and after
an acceptance, a second request by the same user with any key is rejected as
a duplicate. -/
theorem C3_admission_checks_in_order (st : BotState) (u : Int) (k : String) :
    (u ∈ st.active →
      enqueue_key_request st u k = (AdmitResult.rejectedDuplicate, st))
    ∧ (u ∉ st.active → st.keyMap = [] →
      enqueue_key_request st u k = (AdmitResult.rejectedStoreNotReady, st))
    ∧ (u ∉ st.active → st.keyMap ≠ [] →
        lookupKey st.keyMap (normalizeKey k) = none →
      enqueue_key_request st u k = (AdmitResult.rejectedUnknownKey, st))
    ∧ ((enqueue_key_request st u k).1 = AdmitResult.accepted →
        ∀ k2, (enqueue_key_request (enqueue_key_request st u k).2 u k2).1 =
          AdmitResult.rejectedDuplicate) := by
  refine ⟨?_, ?_, ?_, ?_⟩
  · intro h
    simp [enqueue_key_request, h]
  · intro h hkm
    simp [enqueue_key_request, h, hkm]
  · intro h hkm hlk
    have hne : st.keyMap.isEmpty = false := by
      cases hpe : st.keyMap with
      | nil => exact absurd hpe hkm
      | cons a l => rfl
    simp [enqueue_key_request, h, hne, hlk]
  · intro hacc k2
    by_cases h1 : u ∈ st.active
    · simp [enqueue_key_request, h1] at hacc
    · by_cases h2 : st.keyMap.isEmpty = true
      · simp [enqueue_key_request, h1, h2] at hacc
      · by_cases h3 : (lookupKey st.keyMap (normalizeKey k)).isNone = true
        · simp [enqueue_key_request, h1, h2, h3] at hacc
        · simp [enqueue_key_request, h1, h2, h3]

/-- C3 witness: the three rejections and the accepted-then-duplicate scenario
on concrete states. -/
theorem C3_admission_witness :
    enqueue_key_request ⟨[("ue100", [⟨"Pack1.zip", 42⟩])], [9], []⟩ 9 "x" =
      (AdmitResult.rejectedDuplicate, ⟨[("ue100", [⟨"Pack1.zip", 42⟩])], [9], []⟩)
    ∧ enqueue_key_request ⟨[], [], []⟩ 9 "x" =
      (AdmitResult.rejectedStoreNotReady, ⟨[], [], []⟩)
    ∧ enqueue_key_request ⟨[("ue100", [⟨"Pack1.zip", 42⟩])], [], []⟩ 9 "zzz" =
      (AdmitResult.rejectedUnknownKey, ⟨[("ue100", [⟨"Pack1.zip", 42⟩])], [], []⟩)
    ∧ (enqueue_key_request
        (enqueue_key_request ⟨[("ue100", [⟨"Pack1.zip", 42⟩])], [], []⟩
          9 "UE100").2 9 "ue100").1 = AdmitResult.rejectedDuplicate :=
  ⟨(C3_admission_checks_in_order ⟨[("ue100", [⟨"Pack1.zip", 42⟩])], [9], []⟩
      9 "x").1 (by decide),
   (C3_admission_checks_in_order ⟨[], [], []⟩ 9 "x").2.1 (by decide) rfl,
   (C3_admission_checks_in_order ⟨[("ue100", [⟨"Pack1.zip", 42⟩])], [], []⟩
      9 "zzz").2.2.1 (by decide) (by decide) (by decide),
   (C3_admission_checks_in_order ⟨[("ue100", [⟨"Pack1.zip", 42⟩])], [], []⟩
      9 "UE100").2.2.2 (by decide) "ue100"⟩

/-- C6 counterexample: a delivery invocation over an empty file list — the
key is present in the table, e.g. loaded from a cache file, so admission and
the worker re-validation both pass — attempts all (zero) files yet sends no
aggregate notice; it sends the no-files error reply instead. -/
theorem C6_counterexample_empty_file_list :
    (handle_key_actual ⟨true, true, fun _ => true, fun _ => true, true⟩
        [("ue100", [])] "ue100").notice = none
    ∧ (handle_key_actual ⟨true, true, fun _ => true, fun _ => true, true⟩
        [("ue100", [])] "ue100").noFilesReply = true := by
  exact ⟨by decide, by decide⟩

/-- C6 amended: for a delivery invocation over a nonempty file list, after
all files are attempted exactly one aggregate notice is sent — the failure
notice when the error count is nonzero, the success notice otherwise; over an
empty file list no aggregate notice is sent and the no-files error reply is
sent instead. -/
theorem C6_aggregate_notice (env : WorkerEnv) (keyMap : KeyMap)
    (user_input : String) :
    ((lookupKey keyMap user_input).getD [] ≠ [] →
      (handle_key_actual env keyMap user_input).notice =
        some ((handle_key_actual env keyMap user_input).errors == 0)
      ∧ (handle_key_actual env keyMap user_input).noFilesReply = false)
    ∧ ((lookupKey keyMap user_input).getD [] = [] →
      (handle_key_actual env keyMap user_input).notice = none
      ∧ (handle_key_actual env keyMap user_input).noFilesReply = true) := by
  unfold handle_key_actual
  cases hf : (lookupKey keyMap user_input).getD [] with
  | nil => simp
  | cons f rest => simp

/-- C6 witness: one file, delivered, one aggregate success notice. -/
theorem C6_aggregate_notice_witness :
    (handle_key_actual ⟨true, true, fun _ => true, fun _ => true, true⟩
        [("ue100", [⟨"Pack1.zip", 42⟩])] "ue100").notice =
      some ((handle_key_actual ⟨true, true, fun _ => true, fun _ => true, true⟩
        [("ue100", [⟨"Pack1.zip", 42⟩])] "ue100").errors == 0)
    ∧ (handle_key_actual ⟨true, true, fun _ => true, fun _ => true, true⟩
        [("ue100", [⟨"Pack1.zip", 42⟩])] "ue100").noFilesReply = false :=
  (C6_aggregate_notice ⟨true, true, fun _ => true, fun _ => true, true⟩
      [("ue100", [⟨"Pack1.zip", 42⟩])] "ue100").1 (by decide)

/-- C7: the worker re-validates the dequeued item — store nonempty and key
still present — and on failure of either check it takes the generic
processing-error reply branch, never invoking the delivery executor for the
item. -/
theorem C7_worker_revalidates_before_delivery (env : WorkerEnv)
    (keyMap : KeyMap) (active : List Int) (item : QueueItem)
    (h : keyMap = [] ∨ lookupKey keyMap (normalizeKey item.text) = none) :
    (process_queue_item env keyMap active item).outcome =
      ItemOutcome.validationError := by
  have hcond : (keyMap.isEmpty
      || (lookupKey keyMap (normalizeKey item.text)).isNone) = true := by
    rcases h with h | h
    · subst h; rfl
    · simp [h]
  unfold process_queue_item
  cases hv : env.validationReplyOk <;> simp [hcond, hv]

/-- C7 witness: an empty store at processing time yields the validation-error
branch. -/
theorem C7_worker_revalidates_witness :
    (process_queue_item ⟨true, true, fun _ => true, fun _ => true, true⟩
        [] [7] ⟨7, "ue100"⟩).outcome = ItemOutcome.validationError :=
  C7_worker_revalidates_before_delivery
    ⟨true, true, fun _ => true, fun _ => true, true⟩ [] [7] ⟨7, "ue100"⟩
    (Or.inl rfl)

/-- C8: the webhook handler always returns a JSON success body — the error
body exactly when the path token differs from the configured bot token —
and process_update runs to completion exactly when the token matches, the
body parses truthy with an update_id field, and processing does not raise;
a raised exception anywhere in the try block is converted to the ok body. -/
theorem C8_webhook_always_acknowledges (botToken token : String) (body : Body)
    (processRaises : Bool) :
    ((telegram_webhook botToken token body processRaises).1 =
      if token = botToken then WebhookResponse.okBody else WebhookResponse.errorBody)
    ∧ ((telegram_webhook botToken token body processRaises).2 = true ↔
        (token = botToken ∧ body = Body.parsed true true ∧ processRaises = false)) := by
  unfold telegram_webhook webhookTryBlock
  by_cases ht : token = botToken
  · cases body with
    | malformed => simp [ht]
    | parsed t u => cases t <;> cases u <;> cases processRaises <;> simp [ht]
  · simp [ht]

/-- C8 witness: a genuine update on the right token is processed and
acknowledged with the ok body. -/
theorem C8_webhook_witness :
    ((telegram_webhook "tok" "tok" (Body.parsed true true) false).1 =
      if "tok" = "tok" then WebhookResponse.okBody else WebhookResponse.errorBody)
    ∧ ((telegram_webhook "tok" "tok" (Body.parsed true true) false).2 = true ↔
        ("tok" = "tok" ∧ Body.parsed true true = Body.parsed true true
          ∧ false = false)) :=
  C8_webhook_always_acknowledges "tok" "tok" (Body.parsed true true) false

/-- C10: the admin allow-list keeps exactly the comma-separated entries of
ADMIN_IDS that are all digits after trimming; a /reload whose sender id
string is not in the list is rejected with the store untouched; and with the
variable unset/empty, or holding only non-numeric entries, the list is empty
so every /reload from every user is rejected. -/
theorem C10_reload_requires_admin_allowlist (raw : String) (user_id : Int)
    (cache : Option (Option KeyMap)) (hasCreds : Bool) (sheet : SheetResult)
    (keyMap : KeyMap) :
    (∀ s, s ∈ parseADMIN_IDS raw ↔
        (s ∈ (pySplitComma raw).map pyStrip ∧ pyIsdigit s = true))
    ∧ (toString user_id ∉ parseADMIN_IDS raw →
        reload_sheet (parseADMIN_IDS raw) user_id cache hasCreds sheet keyMap =
          (ReloadReply.notAuthorized, keyMap))
    ∧ parseADMIN_IDS "" = []
    ∧ ((∀ e ∈ pySplitComma raw, pyIsdigit (pyStrip e) = false) →
        reload_sheet (parseADMIN_IDS raw) user_id cache hasCreds sheet keyMap =
          (ReloadReply.notAuthorized, keyMap)) := by
  refine ⟨?_, ?_, by decide, ?_⟩
  · intro s
    unfold parseADMIN_IDS
    exact List.mem_filter
  · intro h
    unfold reload_sheet
    simp [h]
  · intro h
    have hemp : parseADMIN_IDS raw = [] := by
      unfold parseADMIN_IDS
      refine List.filter_eq_nil_iff.mpr ?_
      intro a ha
      obtain ⟨e, he, hrfl⟩ := List.mem_map.mp ha
      simp [← hrfl, h e he]
    rw [hemp]
    unfold reload_sheet
    simp

/-- C10 witness: ADMIN_IDS holding only non-numeric entries rejects user 7,
and the empty variable parses to the empty allow-list. -/
theorem C10_reload_witness :
    reload_sheet (parseADMIN_IDS "abc, 12x,") 7 none true SheetResult.err
        [("k", [⟨"a", 1⟩])] =
      (ReloadReply.notAuthorized, [("k", [⟨"a", 1⟩])])
    ∧ parseADMIN_IDS "" = [] :=
  ⟨(C10_reload_requires_admin_allowlist "abc, 12x," 7 none true SheetResult.err
      [("k", [⟨"a", 1⟩])]).2.1 (by decide),
   (C10_reload_requires_admin_allowlist "" 0 none true SheetResult.err
      []).2.2.1⟩
